import Mathlib

/-!
Shallow embedding of the configuration subsystem of karaoke-rs
(`src/config.rs`): the data model (`Config`, `PlayerConfig`), the
default provider (`Config::default`), the layered default-or-file merge
(`default_or_file`), the file bootstrap (`create_config_if_not_exists`,
modelled from the spec since it lives in `karaoke::embed`, outside the
given sources), and the resolution entry point (`load_config`).

Modelling choices:
- Filesystem paths (`PathBuf`) are plain strings; `PathBuf::push` appends
  a separator followed by the component.
- The platform directories supplied by `dirs::config_dir` / `dirs::data_dir`
  are the two fields of a `Dirs` record threaded explicitly (the source
  computes them once in `lazy_static` blocks).
- `u16` port values are modelled as `Nat`; the code performs no arithmetic
  on them, only assignment and comparison.
- The `f32` field `scale` is modelled as `ℚ`; the code performs no
  floating-point arithmetic on it, it is only stored and compared.
- The filesystem is a map from paths to optional file contents, and file
  contents are modelled at the level of the YAML decoder: a file either
  fails to decode (invalid syntax or some field of an incompatible type —
  the `config` crate's deserialization is atomic over the record, so a
  single ill-typed field fails the whole decode) or decodes to a record of
  optional, well-typed fields.  The `config` crate merges nested tables
  key-by-key, so the nested `player` table is itself a record of optional
  fields.
- `load_config` performs file I/O; it is embedded in state-passing style,
  returning the result together with the filesystem after the bootstrap
  step.
-/

namespace KaraokeRs

/-- Filesystem paths, as plain strings. -/
abbrev Path := String

/-- Source `PathBuf::push`: append a separator and one component. -/
def joinPath (p : Path) (component : String) : Path :=
  p ++ "/" ++ component

/-- The platform directories supplied by the external PathResolver
(`dirs::config_dir()` and `dirs::data_dir()`). -/
structure Dirs where
  configRoot : Path
  dataRoot : Path
deriving DecidableEq

/-- Source `CONF_FILE`: platform config root + `karaoke-rs` + `config.yaml`. -/
def CONF_FILE (d : Dirs) : Path :=
  joinPath (joinPath d.configRoot "karaoke-rs") "config.yaml"

/-- Source `DATA_DIR`: platform data root + `karaoke-rs`. -/
def DATA_DIR (d : Dirs) : Path :=
  joinPath d.dataRoot "karaoke-rs"

/-- Source `SONG_DIR`: `DATA_DIR` + `songs`. -/
def SONG_DIR (d : Dirs) : Path :=
  joinPath (DATA_DIR d) "songs"

/-- The nested `PlayerConfig` struct. -/
structure PlayerConfig where
  fullscreen : Bool
  scale : ℚ
  disable_background : Bool
deriving DecidableEq

/-- Source `impl Default for PlayerConfig`. -/
def PlayerConfig.default : PlayerConfig :=
  { fullscreen := false
    scale := 1.5
    disable_background := false }

/-- The root `Config` struct. -/
structure Config where
  song_path : Path
  data_path : Path
  no_collection_update : Bool
  use_web_player : Bool
  port : Nat
  port_ws : Nat
  song_format : String
  player : PlayerConfig
deriving DecidableEq

/-- Source `impl Default for Config`, parameterized by the platform directories. -/
def Config.default (d : Dirs) : Config :=
  { song_path := SONG_DIR d
    data_path := DATA_DIR d
    no_collection_update := false
    use_web_player := false
    port := 8080
    port_ws := 9000
    song_format := "[*] - [Artist] - [Title]"
    player := PlayerConfig.default }

/-- The nested `player` table of a decoded config file: each key optional,
each present value well-typed. -/
structure FilePlayerConfig where
  fullscreen : Option Bool
  scale : Option ℚ
  disable_background : Option Bool
deriving DecidableEq

/-- A decoded config file: each top-level key optional, each present value
well-typed; unknown keys are ignored by the decoder and hence absent here. -/
structure FileConfig where
  song_path : Option Path
  data_path : Option Path
  no_collection_update : Option Bool
  use_web_player : Option Bool
  port : Option Nat
  port_ws : Option Nat
  song_format : Option String
  player : Option FilePlayerConfig
deriving DecidableEq

/-- Contents of a config file, at the level of the YAML decoder: either
decoding fails (malformed syntax, or a field present with an incompatible
type — the record decode is atomic, so one bad field fails the whole file),
or it yields a record of optional well-typed fields. -/
inductive FileContent where
  | malformed
  | wellTyped (f : FileConfig)
deriving DecidableEq

/-- The filesystem: a map from paths to optional file contents. -/
abbrev FS := Path → Option FileContent

/-- The single propagated failure class (`failure::Error`); only decode
failures are reachable in this embedding. -/
inductive ConfigError where
  | decode
deriving DecidableEq

/-- Merge a decoded nested `player` table onto a base `PlayerConfig`:
present keys win, absent keys keep the base value. -/
def FilePlayerConfig.mergeOnto (f : FilePlayerConfig) (base : PlayerConfig) :
    PlayerConfig :=
  { fullscreen := f.fullscreen.getD base.fullscreen
    scale := f.scale.getD base.scale
    disable_background := f.disable_background.getD base.disable_background }

/-- Merge a decoded config file onto a base `Config`: present keys win,
absent keys keep the base value; the nested `player` table merges
key-by-key. -/
def FileConfig.mergeOnto (f : FileConfig) (base : Config) : Config :=
  { song_path := f.song_path.getD base.song_path
    data_path := f.data_path.getD base.data_path
    no_collection_update := f.no_collection_update.getD base.no_collection_update
    use_web_player := f.use_web_player.getD base.use_web_player
    port := f.port.getD base.port
    port_ws := f.port_ws.getD base.port_ws
    song_format := f.song_format.getD base.song_format
    player :=
      match f.player with
      | none => base.player
      | some fp => fp.mergeOnto base.player }

/-- Source `default_or_file`: start from the default config; if a file exists at
`config_path`, decode it and merge it on top (decode failure aborts);
otherwise return the default unchanged. -/
def default_or_file (d : Dirs) (fs : FS) (config_path : Path) :
    Except ConfigError Config :=
  match fs config_path with
  | none => Except.ok (Config.default d)
  | some FileContent.malformed => Except.error ConfigError.decode
  | some (FileContent.wellTyped f) =>
      Except.ok (f.mergeOnto (Config.default d))

/-- Fully serialize a `Config` into a decoded-file record (every field
present). -/
def Config.toFileConfig (c : Config) : FileConfig :=
  { song_path := some c.song_path
    data_path := some c.data_path
    no_collection_update := some c.no_collection_update
    use_web_player := some c.use_web_player
    port := some c.port
    port_ws := some c.port_ws
    song_format := some c.song_format
    player := some
      { fullscreen := some c.player.fullscreen
        scale := some c.player.scale
        disable_background := some c.player.disable_background } }

/-- The decoded contents of a config file containing only `port: 9999`. -/
def portOnlyFile : FileConfig :=
  { song_path := none
    data_path := none
    no_collection_update := none
    use_web_player := none
    port := some 9999
    port_ws := none
    song_format := none
    player := none }

/-- Modelled from the spec: `create_config_if_not_exists` is defined in
`karaoke::embed`, which is not among the given sources.  Per the spec
(FileBootstrapper): given a target path, if no file exists there, write a
serialized DefaultProvider value; if a file already exists, leave it
untouched.  File contents are modelled at the decoder level, so the
serialized default is the fully-populated record of the default config. -/
def create_config_if_not_exists (d : Dirs) (fs : FS) (path : Path) : FS :=
  match fs path with
  | some _ => fs
  | none =>
      fun p =>
        if p = path then
          some (FileContent.wellTyped (Config.default d).toFileConfig)
        else fs p

/-- Lines 113–121 of `load_config`: use the supplied config path if any,
else the default `CONF_FILE` location. -/
def config_file_path (d : Dirs) (config_path : Option Path) : Path :=
  match config_path with
  | some path => path
  | none => CONF_FILE d

/-- Lines 130–148 of `load_config`: overwrite fields of `config` with the
supplied args, in source order; the `refresh_collection` arg is applied
inverted onto `no_collection_update`. -/
def applyOverrides (config : Config)
    (song_path data_path : Option Path)
    (refresh_collection use_web_player : Option Bool)
    (port port_ws : Option Nat) : Config :=
  let config :=
    match song_path with
    | some path => { config with song_path := path }
    | none => config
  let config :=
    match data_path with
    | some path => { config with data_path := path }
    | none => config
  let config :=
    match refresh_collection with
    | some b => { config with no_collection_update := !b }
    | none => config
  let config :=
    match use_web_player with
    | some b => { config with use_web_player := b }
    | none => config
  let config :=
    match port with
    | some p => { config with port := p }
    | none => config
  let config :=
    match port_ws with
    | some p => { config with port_ws := p }
    | none => config
  config

/-- Source `load_config`: resolve the config file path, bootstrap the file if
absent, merge default with file, then apply the supplied args.  Embedded in
state-passing style: returns the result together with the filesystem after
the bootstrap step. -/
def load_config (d : Dirs) (fs : FS)
    (config_path song_path data_path : Option Path)
    (refresh_collection use_web_player : Option Bool)
    (port port_ws : Option Nat) : Except ConfigError Config × FS :=
  let config_file := config_file_path d config_path
  let fs := create_config_if_not_exists d fs config_file
  match default_or_file d fs config_file with
  | Except.error e => (Except.error e, fs)
  | Except.ok config =>
      (Except.ok (applyOverrides config song_path data_path
        refresh_collection use_web_player port port_ws), fs)

/-- The default-or-file merge as performed inside `load_config`: after the
bootstrap step, at the resolved config file path. -/
def mergedConfig (d : Dirs) (fs : FS) (config_path : Option Path) :
    Except ConfigError Config :=
  default_or_file d
    (create_config_if_not_exists d fs (config_file_path d config_path))
    (config_file_path d config_path)

/-- Helper: `load_config` computed in terms of `mergedConfig`,
`applyOverrides` and the bootstrap step. -/
lemma load_config_eq (d : Dirs) (fs : FS)
    (cp sp dp : Option Path) (rc wp : Option Bool) (po pw : Option Nat) :
    load_config d fs cp sp dp rc wp po pw =
      ((mergedConfig d fs cp).map (fun m => applyOverrides m sp dp rc wp po pw),
        create_config_if_not_exists d fs (config_file_path d cp)) := by
  unfold load_config mergedConfig
  cases h : default_or_file d
      (create_config_if_not_exists d fs (config_file_path d cp))
      (config_file_path d cp) <;>
    simp [h, Except.map]

/-- Helper: the fields of `applyOverrides`, one equation per field. -/
lemma applyOverrides_spec (c : Config)
    (sp dp : Option Path) (rc wp : Option Bool) (po pw : Option Nat) :
    applyOverrides c sp dp rc wp po pw =
      { song_path := sp.getD c.song_path
        data_path := dp.getD c.data_path
        no_collection_update :=
          match rc with
          | some b => !b
          | none => c.no_collection_update
        use_web_player := wp.getD c.use_web_player
        port := po.getD c.port
        port_ws := pw.getD c.port_ws
        song_format := c.song_format
        player := c.player } := by
  cases sp <;> cases dp <;> cases rc <;> cases wp <;> cases po <;> cases pw <;>
    rfl

/-- Helper: merging the full serialization of a config onto any base
returns that config. -/
lemma toFileConfig_mergeOnto (c base : Config) :
    (Config.toFileConfig c).mergeOnto base = c := by
  rfl

/-- Helper: bootstrapping leaves an existing file untouched. -/
lemma create_config_if_not_exists_of_isSome (d : Dirs) (fs : FS) (path : Path)
    (h : (fs path).isSome) :
    create_config_if_not_exists d fs path = fs := by
  unfold create_config_if_not_exists
  cases hp : fs path with
  | none => rw [hp] at h; simp at h
  | some b => simp

/-- Helper: after bootstrapping, a file exists at the target path. -/
lemma create_config_if_not_exists_isSome (d : Dirs) (fs : FS) (path : Path) :
    ((create_config_if_not_exists d fs path) path).isSome := by
  unfold create_config_if_not_exists
  cases hp : fs path with
  | none => simp
  | some b => simp [hp]

/-- Helper: bootstrapping an absent file writes the serialized default. -/
lemma create_config_if_not_exists_of_none (d : Dirs) (fs : FS) (path : Path)
    (h : fs path = none) :
    create_config_if_not_exists d fs path =
      fun p =>
        if p = path then
          some (FileContent.wellTyped (Config.default d).toFileConfig)
        else fs p := by
  unfold create_config_if_not_exists
  rw [h]

/-- Claim C1: for every call to `load_config`, each override among
`song_path`, `data_path`, `use_web_player`, `port`, `port_ws` that is
supplied (`some`) results in the corresponding field of the returned
`Config` being exactly the supplied value, regardless of the default and of
any value in the config file; each absent override (`none`) leaves the
corresponding field of the merged value unchanged. -/
theorem load_config_override_fields (d : Dirs) (fs : FS)
    (cp sp dp : Option Path) (rc wp : Option Bool) (po pw : Option Nat)
    (c : Config)
    (h : (load_config d fs cp sp dp rc wp po pw).1 = Except.ok c) :
    ∃ m, mergedConfig d fs cp = Except.ok m ∧
      c.song_path = sp.getD m.song_path ∧
      c.data_path = dp.getD m.data_path ∧
      c.use_web_player = wp.getD m.use_web_player ∧
      c.port = po.getD m.port ∧
      c.port_ws = pw.getD m.port_ws := by
  rw [load_config_eq] at h
  cases hm : mergedConfig d fs cp with
  | error e => rw [hm] at h; simp [Except.map] at h
  | ok m =>
      rw [hm] at h
      simp only [Except.map, Except.ok.injEq] at h
      subst h
      exact ⟨m, rfl, by simp [applyOverrides_spec]⟩

/-- Witness for C1 at a concrete input: file absent, all five overrides
supplied. -/
theorem load_config_override_fields_witness :
    (load_config ⟨"cr", "dr"⟩ (fun _ => none) (some "p") (some "s")
        (some "t") (some true) (some true) (some 8000) (some 9090)).1 =
      Except.ok
        { song_path := "s"
          data_path := "t"
          no_collection_update := false
          use_web_player := true
          port := 8000
          port_ws := 9090
          song_format := "[*] - [Artist] - [Title]"
          player := PlayerConfig.default } ∧
    (∃ m, mergedConfig ⟨"cr", "dr"⟩ (fun _ => none) (some "p") =
          Except.ok m ∧
        ({ song_path := "s"
           data_path := "t"
           no_collection_update := false
           use_web_player := true
           port := 8000
           port_ws := 9090
           song_format := "[*] - [Artist] - [Title]"
           player := PlayerConfig.default } : Config).song_path =
          (some "s").getD m.song_path ∧
        ({ song_path := "s"
           data_path := "t"
           no_collection_update := false
           use_web_player := true
           port := 8000
           port_ws := 9090
           song_format := "[*] - [Artist] - [Title]"
           player := PlayerConfig.default } : Config).data_path =
          (some "t").getD m.data_path ∧
        ({ song_path := "s"
           data_path := "t"
           no_collection_update := false
           use_web_player := true
           port := 8000
           port_ws := 9090
           song_format := "[*] - [Artist] - [Title]"
           player := PlayerConfig.default } : Config).use_web_player =
          (some true).getD m.use_web_player ∧
        ({ song_path := "s"
           data_path := "t"
           no_collection_update := false
           use_web_player := true
           port := 8000
           port_ws := 9090
           song_format := "[*] - [Artist] - [Title]"
           player := PlayerConfig.default } : Config).port =
          (some 8000).getD m.port ∧
        ({ song_path := "s"
           data_path := "t"
           no_collection_update := false
           use_web_player := true
           port := 8000
           port_ws := 9090
           song_format := "[*] - [Artist] - [Title]"
           player := PlayerConfig.default } : Config).port_ws =
          (some 9090).getD m.port_ws) :=
  ⟨by rfl,
    load_config_override_fields ⟨"cr", "dr"⟩ (fun _ => none) (some "p")
      (some "s") (some "t") (some true) (some true) (some 8000) (some 9090)
      _ (by rfl)⟩

/-- Claim C2: for every call to `load_config`: if the `refresh_collection`
override is `some true`, the returned config has
`no_collection_update = false`; if it is `some false`,
`no_collection_update = true`; if it is `none`, `no_collection_update`
equals the value produced by the default-or-file merge, unchanged. -/
theorem load_config_refresh_inversion (d : Dirs) (fs : FS)
    (cp sp dp : Option Path) (rc wp : Option Bool) (po pw : Option Nat)
    (c : Config)
    (h : (load_config d fs cp sp dp rc wp po pw).1 = Except.ok c) :
    ∃ m, mergedConfig d fs cp = Except.ok m ∧
      (rc = some true → c.no_collection_update = false) ∧
      (rc = some false → c.no_collection_update = true) ∧
      (rc = none → c.no_collection_update = m.no_collection_update) := by
  rw [load_config_eq] at h
  cases hm : mergedConfig d fs cp with
  | error e => rw [hm] at h; simp [Except.map] at h
  | ok m =>
      rw [hm] at h
      simp only [Except.map, Except.ok.injEq] at h
      subst h
      refine ⟨m, rfl, ?_, ?_, ?_⟩ <;>
        intro hrc <;> subst hrc <;> simp [applyOverrides_spec]

/-- Witness for C2 at a concrete input: `refresh_collection = some true`,
file absent. -/
theorem load_config_refresh_inversion_witness :
    (load_config ⟨"cr", "dr"⟩ (fun _ => none) (some "p") none none
        (some true) none none none).1 =
      Except.ok
        { Config.default ⟨"cr", "dr"⟩ with no_collection_update := false } ∧
    (∃ m, mergedConfig ⟨"cr", "dr"⟩ (fun _ => none) (some "p") =
          Except.ok m ∧
        ((some true : Option Bool) = some true →
          ({ Config.default ⟨"cr", "dr"⟩ with
              no_collection_update := false } : Config).no_collection_update
            = false) ∧
        ((some true : Option Bool) = some false →
          ({ Config.default ⟨"cr", "dr"⟩ with
              no_collection_update := false } : Config).no_collection_update
            = true) ∧
        ((some true : Option Bool) = none →
          ({ Config.default ⟨"cr", "dr"⟩ with
              no_collection_update := false } : Config).no_collection_update
            = m.no_collection_update)) :=
  ⟨by rfl,
    load_config_refresh_inversion ⟨"cr", "dr"⟩ (fun _ => none) (some "p")
      none none (some true) none none none _ (by rfl)⟩

/-- Claim C3: the default-or-file merge starts from the default `Config`;
each field present (and well-typed) in the file replaces the corresponding
default field, and each field absent from the file keeps its default value;
in particular a file containing only `port: 9999` merges to the default
config with `port = 9999`. -/
theorem default_or_file_field_semantics (d : Dirs) (fs : FS) (cf : Path)
    (f : FileConfig) (c : Config)
    (hf : fs cf = some (FileContent.wellTyped f))
    (hc : default_or_file d fs cf = Except.ok c) :
    c.song_path = f.song_path.getD (SONG_DIR d) ∧
    c.data_path = f.data_path.getD (DATA_DIR d) ∧
    c.no_collection_update = f.no_collection_update.getD false ∧
    c.use_web_player = f.use_web_player.getD false ∧
    c.port = f.port.getD 8080 ∧
    c.port_ws = f.port_ws.getD 9000 ∧
    c.song_format = f.song_format.getD "[*] - [Artist] - [Title]" ∧
    (f.player = none → c.player = PlayerConfig.default) ∧
    (∀ fp, f.player = some fp →
      c.player.fullscreen = fp.fullscreen.getD false ∧
      c.player.scale = fp.scale.getD 1.5 ∧
      c.player.disable_background = fp.disable_background.getD false) ∧
    default_or_file d
        (fun p =>
          if p = cf then some (FileContent.wellTyped portOnlyFile) else none)
        cf =
      Except.ok { Config.default d with port := 9999 } := by
  unfold default_or_file at hc
  simp only [hf] at hc
  rw [Except.ok.injEq] at hc
  subst hc
  refine ⟨?_, ?_, ?_, ?_, ?_, ?_, ?_, ?_, ?_, ?_⟩
  · simp [FileConfig.mergeOnto, Config.default]
  · simp [FileConfig.mergeOnto, Config.default]
  · simp [FileConfig.mergeOnto, Config.default]
  · simp [FileConfig.mergeOnto, Config.default]
  · simp [FileConfig.mergeOnto, Config.default]
  · simp [FileConfig.mergeOnto, Config.default]
  · simp [FileConfig.mergeOnto, Config.default]
  · intro hp
    simp [FileConfig.mergeOnto, hp, Config.default]
  · intro fp hp
    simp [FileConfig.mergeOnto, hp, FilePlayerConfig.mergeOnto,
      Config.default, PlayerConfig.default]
  · simp [default_or_file, portOnlyFile, FileConfig.mergeOnto, Config.default]

/-- Witness for C3 at a concrete input: a file holding only `port: 9999`. -/
theorem default_or_file_field_semantics_witness :
    ((fun p =>
        if p = "p" then some (FileContent.wellTyped portOnlyFile)
        else none : FS) "p" = some (FileContent.wellTyped portOnlyFile)) ∧
    (({ Config.default ⟨"cr", "dr"⟩ with port := 9999 } : Config).song_path =
        portOnlyFile.song_path.getD (SONG_DIR ⟨"cr", "dr"⟩) ∧
      ({ Config.default ⟨"cr", "dr"⟩ with port := 9999 } : Config).data_path =
        portOnlyFile.data_path.getD (DATA_DIR ⟨"cr", "dr"⟩) ∧
      ({ Config.default ⟨"cr", "dr"⟩ with
          port := 9999 } : Config).no_collection_update =
        portOnlyFile.no_collection_update.getD false ∧
      ({ Config.default ⟨"cr", "dr"⟩ with
          port := 9999 } : Config).use_web_player =
        portOnlyFile.use_web_player.getD false ∧
      ({ Config.default ⟨"cr", "dr"⟩ with port := 9999 } : Config).port =
        portOnlyFile.port.getD 8080 ∧
      ({ Config.default ⟨"cr", "dr"⟩ with port := 9999 } : Config).port_ws =
        portOnlyFile.port_ws.getD 9000 ∧
      ({ Config.default ⟨"cr", "dr"⟩ with port := 9999 } : Config).song_format
        = portOnlyFile.song_format.getD "[*] - [Artist] - [Title]" ∧
      (portOnlyFile.player = none →
        ({ Config.default ⟨"cr", "dr"⟩ with port := 9999 } : Config).player =
          PlayerConfig.default) ∧
      (∀ fp, portOnlyFile.player = some fp →
        ({ Config.default ⟨"cr", "dr"⟩ with
            port := 9999 } : Config).player.fullscreen =
          fp.fullscreen.getD false ∧
        ({ Config.default ⟨"cr", "dr"⟩ with
            port := 9999 } : Config).player.scale = fp.scale.getD 1.5 ∧
        ({ Config.default ⟨"cr", "dr"⟩ with
            port := 9999 } : Config).player.disable_background =
          fp.disable_background.getD false) ∧
      default_or_file ⟨"cr", "dr"⟩
          (fun p =>
            if p = "p" then some (FileContent.wellTyped portOnlyFile)
            else none)
          "p" =
        Except.ok { Config.default ⟨"cr", "dr"⟩ with port := 9999 }) :=
  ⟨rfl,
    default_or_file_field_semantics ⟨"cr", "dr"⟩
      (fun p =>
        if p = "p" then some (FileContent.wellTyped portOnlyFile) else none)
      "p" portOnlyFile _ rfl rfl⟩

/-- Claim C4: for every config file whose contents fail to decode
(malformed syntax or an ill-typed field), `load_config` returns an error
and no `Config` value. -/
theorem load_config_malformed_errors (d : Dirs) (fs : FS)
    (cp sp dp : Option Path) (rc wp : Option Bool) (po pw : Option Nat)
    (h : fs (config_file_path d cp) = some FileContent.malformed) :
    (load_config d fs cp sp dp rc wp po pw).1 =
      Except.error ConfigError.decode := by
  rw [load_config_eq]
  have hkeep : create_config_if_not_exists d fs (config_file_path d cp) = fs :=
    create_config_if_not_exists_of_isSome d fs _ (by rw [h]; rfl)
  simp [mergedConfig, hkeep, default_or_file, h, Except.map]

/-- Witness for C4 at a concrete input: a malformed file at the supplied
path. -/
theorem load_config_malformed_errors_witness :
    ((fun _ => some FileContent.malformed : FS)
        (config_file_path ⟨"cr", "dr"⟩ (some "p")) =
      some FileContent.malformed) ∧
    (load_config ⟨"cr", "dr"⟩ (fun _ => some FileContent.malformed)
        (some "p") none none none none none none).1 =
      Except.error ConfigError.decode :=
  ⟨rfl,
    load_config_malformed_errors ⟨"cr", "dr"⟩
      (fun _ => some FileContent.malformed) (some "p") none none none none
      none none rfl⟩

/-- Claim C5: when no file exists at the target path and all six override
arguments are `none`, `load_config` returns the default `Config`, and
afterwards a file exists at the target path. -/
theorem load_config_fresh_defaults (d : Dirs) (fs : FS) (cp : Option Path)
    (h : fs (config_file_path d cp) = none) :
    (load_config d fs cp none none none none none none).1 =
      Except.ok (Config.default d) ∧
    ((load_config d fs cp none none none none none none).2
        (config_file_path d cp)).isSome := by
  rw [load_config_eq]
  constructor
  · rw [mergedConfig, create_config_if_not_exists_of_none d fs _ h]
    simp [default_or_file, toFileConfig_mergeOnto, Except.map, applyOverrides]
  · exact create_config_if_not_exists_isSome d fs _

/-- Witness for C5 at a concrete input: empty filesystem, no overrides. -/
theorem load_config_fresh_defaults_witness :
    ((fun _ => none : FS) (config_file_path ⟨"cr", "dr"⟩ (some "p")) =
      none) ∧
    ((load_config ⟨"cr", "dr"⟩ (fun _ => none) (some "p") none none none
          none none none).1 =
        Except.ok (Config.default ⟨"cr", "dr"⟩) ∧
      ((load_config ⟨"cr", "dr"⟩ (fun _ => none) (some "p") none none none
            none none none).2
          (config_file_path ⟨"cr", "dr"⟩ (some "p"))).isSome) :=
  ⟨rfl,
    load_config_fresh_defaults ⟨"cr", "dr"⟩ (fun _ => none) (some "p") rfl⟩

/-- Claim C6: the default `Config` has exactly the documented field values;
`song_path` is the `songs` subdirectory of the data directory, and
`data_path` is the platform data directory extended with `karaoke-rs`.
Determinism is inherent: `Config.default` is a pure function of the
resolved directories. -/
theorem default_config_values (d : Dirs) :
    (Config.default d).no_collection_update = false ∧
    (Config.default d).use_web_player = false ∧
    (Config.default d).port = 8080 ∧
    (Config.default d).port_ws = 9000 ∧
    (Config.default d).song_format = "[*] - [Artist] - [Title]" ∧
    (Config.default d).player.fullscreen = false ∧
    (Config.default d).player.scale = 1.5 ∧
    (Config.default d).player.disable_background = false ∧
    (Config.default d).song_path =
      joinPath (Config.default d).data_path "songs" ∧
    (Config.default d).data_path = joinPath d.dataRoot "karaoke-rs" :=
  ⟨rfl, rfl, rfl, rfl, rfl, rfl, rfl, rfl, rfl, rfl⟩

/-- Claim C7: whatever combination of overrides is supplied, `song_format`
and every field of the nested `player` value in the returned `Config` equal
those of the default-or-file merge result: no override can change them. -/
theorem load_config_frame_format_player (d : Dirs) (fs : FS)
    (cp sp dp : Option Path) (rc wp : Option Bool) (po pw : Option Nat)
    (c : Config)
    (h : (load_config d fs cp sp dp rc wp po pw).1 = Except.ok c) :
    ∃ m, mergedConfig d fs cp = Except.ok m ∧
      c.song_format = m.song_format ∧ c.player = m.player := by
  rw [load_config_eq] at h
  cases hm : mergedConfig d fs cp with
  | error e => rw [hm] at h; simp [Except.map] at h
  | ok m =>
      rw [hm] at h
      simp only [Except.map, Except.ok.injEq] at h
      subst h
      exact ⟨m, rfl, by simp [applyOverrides_spec]⟩

/-- Witness for C7 at a concrete input: every override supplied. -/
theorem load_config_frame_format_player_witness :
    (load_config ⟨"cr", "dr"⟩ (fun _ => none) (some "p") (some "s")
        (some "t") (some true) (some true) (some 8000) (some 9090)).1 =
      Except.ok
        { song_path := "s"
          data_path := "t"
          no_collection_update := false
          use_web_player := true
          port := 8000
          port_ws := 9090
          song_format := "[*] - [Artist] - [Title]"
          player := PlayerConfig.default } ∧
    (∃ m, mergedConfig ⟨"cr", "dr"⟩ (fun _ => none) (some "p") =
          Except.ok m ∧
        ({ song_path := "s"
           data_path := "t"
           no_collection_update := false
           use_web_player := true
           port := 8000
           port_ws := 9090
           song_format := "[*] - [Artist] - [Title]"
           player := PlayerConfig.default } : Config).song_format =
          m.song_format ∧
        ({ song_path := "s"
           data_path := "t"
           no_collection_update := false
           use_web_player := true
           port := 8000
           port_ws := 9090
           song_format := "[*] - [Artist] - [Title]"
           player := PlayerConfig.default } : Config).player = m.player) :=
  ⟨by rfl,
    load_config_frame_format_player ⟨"cr", "dr"⟩ (fun _ => none) (some "p")
      (some "s") (some "t") (some true) (some true) (some 8000) (some 9090)
      _ (by rfl)⟩

/-- Claim C9 (bootstrap modelled from the spec, the function lives in
`karaoke::embed` outside the given sources): the file bootstrap is
idempotent — bootstrapping twice equals bootstrapping once, and when a file
already exists at the target path the bootstrap leaves the whole filesystem
untouched. -/
theorem create_config_idempotent (d : Dirs) (fs : FS) (path : Path) :
    create_config_if_not_exists d (create_config_if_not_exists d fs path)
        path =
      create_config_if_not_exists d fs path ∧
    ∀ b, fs path = some b → create_config_if_not_exists d fs path = fs := by
  constructor
  · exact create_config_if_not_exists_of_isSome d _ path
      (create_config_if_not_exists_isSome d fs path)
  · intro b hb
    exact create_config_if_not_exists_of_isSome d fs path (by rw [hb]; rfl)

/-- Witness for C9 at concrete inputs: an empty filesystem (double
bootstrap) and a filesystem already holding a file at the path (no-op). -/
theorem create_config_idempotent_witness :
    (create_config_if_not_exists ⟨"cr", "dr"⟩
        (create_config_if_not_exists ⟨"cr", "dr"⟩ (fun _ => none) "p") "p" =
      create_config_if_not_exists ⟨"cr", "dr"⟩ (fun _ => none) "p") ∧
    (create_config_if_not_exists ⟨"cr", "dr"⟩
        (fun _ => some FileContent.malformed) "p" =
      fun _ => some FileContent.malformed) :=
  ⟨(create_config_idempotent ⟨"cr", "dr"⟩ (fun _ => none) "p").1,
    (create_config_idempotent ⟨"cr", "dr"⟩
        (fun _ => some FileContent.malformed) "p").2
      FileContent.malformed rfl⟩

/-- Claim C10: supplying the `data_path` override does not relocate the
song directory — with `data_path = some dpath` and `song_path = none`, the
returned `song_path` equals the merged value, while `data_path` becomes
`dpath`. -/
theorem load_config_data_path_independent (d : Dirs) (fs : FS)
    (cp : Option Path) (dpath : Path) (rc wp : Option Bool)
    (po pw : Option Nat) (c : Config)
    (h : (load_config d fs cp none (some dpath) rc wp po pw).1 =
      Except.ok c) :
    ∃ m, mergedConfig d fs cp = Except.ok m ∧
      c.song_path = m.song_path ∧ c.data_path = dpath := by
  rw [load_config_eq] at h
  cases hm : mergedConfig d fs cp with
  | error e => rw [hm] at h; simp [Except.map] at h
  | ok m =>
      rw [hm] at h
      simp only [Except.map, Except.ok.injEq] at h
      subst h
      exact ⟨m, rfl, by simp [applyOverrides_spec]⟩

/-- Witness for C10 at a concrete input: file absent, `data_path`
overridden, `song_path` not. -/
theorem load_config_data_path_independent_witness :
    (load_config ⟨"cr", "dr"⟩ (fun _ => none) (some "p") none (some "t")
        none none none none).1 =
      Except.ok { Config.default ⟨"cr", "dr"⟩ with data_path := "t" } ∧
    (∃ m, mergedConfig ⟨"cr", "dr"⟩ (fun _ => none) (some "p") =
          Except.ok m ∧
        ({ Config.default ⟨"cr", "dr"⟩ with
            data_path := "t" } : Config).song_path = m.song_path ∧
        ({ Config.default ⟨"cr", "dr"⟩ with
            data_path := "t" } : Config).data_path = "t") :=
  ⟨by rfl,
    load_config_data_path_independent ⟨"cr", "dr"⟩ (fun _ => none)
      (some "p") "t" none none none none _ (by rfl)⟩

/-- Helper: a joined path is never the empty string (its second component
is preceded by a separator). -/
lemma joinPath_ne_empty (p component : Path) : joinPath p component ≠ "" := by
  intro h
  have hd := congrArg String.data h
  simp [joinPath, String.data_append] at hd

/-- Counterexample to claim C8 as stated: a successful resolution CAN
yield an empty `song_path` — the caller may pass the empty path as the
`song_path` override, and `load_config` stores it verbatim. -/
theorem load_config_paths_nonempty_counterexample :
    ((load_config ⟨"cr", "dr"⟩ (fun _ => none) (some "p") (some "") none
          none none none none).1.map Config.song_path) =
      Except.ok "" ∧
    ("" : String).isEmpty := ⟨rfl, rfl⟩

/-- Claim C8, amended: the default path values are never empty, so a
successful resolution yields non-empty `song_path` and `data_path`
provided every value supplied for these two fields — by the overrides or by
the config file — is itself non-empty (in particular whenever neither
source sets them). -/
theorem load_config_paths_nonempty (d : Dirs) (fs : FS)
    (cp sp dp : Option Path) (rc wp : Option Bool) (po pw : Option Nat)
    (c : Config)
    (h : (load_config d fs cp sp dp rc wp po pw).1 = Except.ok c)
    (hsp : ∀ p, sp = some p → p ≠ "")
    (hdp : ∀ p, dp = some p → p ≠ "")
    (hfs : ∀ f p,
      fs (config_file_path d cp) = some (FileContent.wellTyped f) →
      f.song_path = some p → p ≠ "")
    (hfd : ∀ f p,
      fs (config_file_path d cp) = some (FileContent.wellTyped f) →
      f.data_path = some p → p ≠ "") :
    c.song_path ≠ "" ∧ c.data_path ≠ "" := by
  rw [load_config_eq] at h
  unfold mergedConfig at h
  cases hfile : fs (config_file_path d cp) with
  | none =>
      rw [create_config_if_not_exists_of_none d fs _ hfile] at h
      simp [default_or_file, toFileConfig_mergeOnto, Except.map] at h
      subst h
      rw [applyOverrides_spec]
      constructor
      · cases hsp2 : sp with
        | some p => simpa [hsp2] using hsp p hsp2
        | none =>
            simpa [hsp2, Config.default, SONG_DIR] using
              joinPath_ne_empty (DATA_DIR d) "songs"
      · cases hdp2 : dp with
        | some p => simpa [hdp2] using hdp p hdp2
        | none =>
            simpa [hdp2, Config.default, DATA_DIR] using
              joinPath_ne_empty d.dataRoot "karaoke-rs"
  | some content =>
      rw [create_config_if_not_exists_of_isSome d fs _ (by rw [hfile]; rfl)]
        at h
      cases content with
      | malformed => simp [default_or_file, hfile, Except.map] at h
      | wellTyped f =>
          simp only [default_or_file, hfile, Except.map, Except.ok.injEq]
            at h
          subst h
          rw [applyOverrides_spec]
          constructor
          · cases hsp2 : sp with
            | some p => simpa [hsp2] using hsp p hsp2
            | none =>
                cases hq : f.song_path with
                | some p =>
                    simpa [hsp2, FileConfig.mergeOnto, hq] using
                      hfs f p hfile hq
                | none =>
                    simpa [hsp2, FileConfig.mergeOnto, hq, Config.default,
                      SONG_DIR] using joinPath_ne_empty (DATA_DIR d) "songs"
          · cases hdp2 : dp with
            | some p => simpa [hdp2] using hdp p hdp2
            | none =>
                cases hq : f.data_path with
                | some p =>
                    simpa [hdp2, FileConfig.mergeOnto, hq] using
                      hfd f p hfile hq
                | none =>
                    simpa [hdp2, FileConfig.mergeOnto, hq, Config.default,
                      DATA_DIR] using
                      joinPath_ne_empty d.dataRoot "karaoke-rs"

/-- Witness for the amended C8 at a concrete input: empty filesystem, no
overrides. -/
theorem load_config_paths_nonempty_witness :
    (load_config ⟨"cr", "dr"⟩ (fun _ => none) (some "p") none none none
        none none none).1 =
      Except.ok (Config.default ⟨"cr", "dr"⟩) ∧
    ((Config.default ⟨"cr", "dr"⟩).song_path ≠ "" ∧
      (Config.default ⟨"cr", "dr"⟩).data_path ≠ "") :=
  ⟨by rfl,
    load_config_paths_nonempty ⟨"cr", "dr"⟩ (fun _ => none) (some "p") none
      none none none none none _ (by rfl) (fun p hp => nomatch hp)
      (fun p hp => nomatch hp) (fun f p hm _ => nomatch hm)
      (fun f p hm _ => nomatch hm)⟩

end KaraokeRs
